import Mathlib

/-!
Shallow embedding of the BiliNote frontend chat panel and its API client.

Source files embedded:
* `src/BillNote_frontend/src/services/chat.ts` — the `chatService` client
  (createSession, sendMessage, getChatHistory, deleteSession, testConnection).
* the `ChatContainer` chat-panel component — session bootstrap
  (`initializeChat`), message send with optimistic append and rollback
  (`handleSendMessage`), and local message deletion (`handleDeleteMessage`).

Remote HTTP calls are embedded as explicit `Except TransportError α`
arguments: the value the transport would deliver, or a transport failure.
React state (`useState` setters) is embedded as explicit state passing on a
`PanelState` record; each async handler becomes a pure function from the
state before the handler runs (plus the transport outcome) to the state
after it completes.
-/

/-- A chat turn, from `ChatMessage` in `services/chat.ts`:
`{ role: 'user' | 'assistant'; content: string; timestamp?: string }`. -/
structure ChatMessage where
  role : String
  content : String
  timestamp : Option String := none
deriving DecidableEq, Repr

/-- Session record returned by the backend, from `ChatSession` in
`services/chat.ts`: `{ session_id; welcome_message; status }`. -/
structure ChatSession where
  session_id : String
  welcome_message : String
  status : String
deriving DecidableEq, Repr

/-- A transport-level failure (network/HTTP error) of a remote call. -/
structure TransportError where
  message : String
deriving DecidableEq, Repr

/-- Response delivered by POST `/chat/messages`:
`{ response: string; session_id: string }`. -/
structure SendMessageResponse where
  response : String
  session_id : String
deriving DecidableEq, Repr

/-- Raw response delivered by GET `/chat/sessions/{id}/history`; the
`history` field may be absent (`response.history || []` in the source). -/
structure HistoryResponse where
  history : Option (List ChatMessage)
deriving DecidableEq, Repr

namespace chatService

/-- `chatService.createSession`: awaits the POST and returns the response;
the catch block logs and rethrows, so the transport outcome passes through. -/
def createSession (transport : Except TransportError ChatSession) :
    Except TransportError ChatSession :=
  match transport with
  | .ok response => .ok response
  | .error e => .error e

/-- `chatService.sendMessage`: awaits the POST and returns the response;
the catch block logs and rethrows, so the transport outcome passes through. -/
def sendMessage (transport : Except TransportError SendMessageResponse) :
    Except TransportError SendMessageResponse :=
  match transport with
  | .ok response => .ok response
  | .error e => .error e

/-- `chatService.getChatHistory`: on success returns `response.history || []`;
the catch block swallows the transport error and returns `[]`. -/
def getChatHistory (transport : Except TransportError HistoryResponse) :
    List ChatMessage :=
  match transport with
  | .ok response => response.history.getD []
  | .error _ => []

/-- `chatService.deleteSession`: returns `true` after a successful DELETE;
the catch block swallows the transport error and returns `false`. -/
def deleteSession (transport : Except TransportError Unit) : Bool :=
  match transport with
  | .ok _ => true
  | .error _ => false

/-- `chatService.testConnection`: returns `true` after a successful GET;
the catch block swallows the transport error and returns `false`. -/
def testConnection (transport : Except TransportError Unit) : Bool :=
  match transport with
  | .ok _ => true
  | .error _ => false

end chatService

/-- The chat panel's `useState` fields: `sessionId`, `messages`,
`inputMessage`, `isLoading`, `isInitializing`. -/
structure PanelState where
  sessionId : String
  messages : List ChatMessage
  inputMessage : String
  isLoading : Bool
  isInitializing : Bool
deriving DecidableEq, Repr

/-- The state at component mount: `useState('')`, `useState([])`,
`useState('')`, `useState(false)`, `useState(true)`. -/
def initialState : PanelState :=
  { sessionId := "", messages := [], inputMessage := "",
    isLoading := false, isInitializing := true }

/-- The welcome entry the panel builds from a session:
`{ role: 'assistant', content: session.welcome_message }`. -/
def welcomeTurn (session : ChatSession) : ChatMessage :=
  { role := "assistant", content := session.welcome_message }

/-- `initializeChat` from the chat panel: create a session; on status
`'existing'` fetch history and use it when non-empty, else fall back to the
welcome entry; on status other than `'existing'` use the welcome entry; the
catch block leaves `messages` and `sessionId` untouched; the finally block
clears `isInitializing` on every path. -/
def initializeChat (createTransport : Except TransportError ChatSession)
    (historyTransport : Except TransportError HistoryResponse)
    (s : PanelState) : PanelState :=
  match chatService.createSession createTransport with
  | .error _ =>
      { s with isInitializing := false }
  | .ok session =>
      let s1 := { s with sessionId := session.session_id }
      if session.status = "existing" then
        let history := chatService.getChatHistory historyTransport
        if history.length > 0 then
          { s1 with messages := history, isInitializing := false }
        else
          { s1 with messages := [welcomeTurn session], isInitializing := false }
      else
        { s1 with messages := [welcomeTurn session], isInitializing := false }

/-- JavaScript `String.prototype.trim`: the string with whitespace removed
from both ends (structurally recursive so concrete inputs evaluate). -/
def jsTrim (s : String) : String :=
  String.mk
    (((s.data.dropWhile Char.isWhitespace).reverse.dropWhile
      Char.isWhitespace).reverse)

/-- `handleSendMessage` from the chat panel, as a function from the state
before the handler and the transport outcome to (state after, whether a
remote call was issued). Guard: `if (!inputMessage.trim() || !sessionId ||
isLoading) return`. Then: optimistically append the user turn, clear the
input, set `isLoading`; on success append the assistant turn; on failure
drop the last entry (`prev.slice(0, -1)`); finally clear `isLoading`. -/
def handleSendMessage (s : PanelState)
    (remote : Except TransportError SendMessageResponse) : PanelState × Bool :=
  if jsTrim s.inputMessage = "" ∨ s.sessionId = "" ∨ s.isLoading = true then
    (s, false)
  else
    let userMessage : ChatMessage := { role := "user", content := s.inputMessage }
    let s1 := { s with
      messages := s.messages ++ [userMessage]
      inputMessage := ""
      isLoading := true }
    match chatService.sendMessage remote with
    | .ok response =>
        ({ s1 with
          messages := s1.messages ++
            [{ role := "assistant", content := response.response }]
          isLoading := false }, true)
    | .error _ =>
        ({ s1 with messages := s1.messages.dropLast, isLoading := false }, true)

/-- Outcome of `handleDeleteMessage`: `rejected` is the `index === 0` early
return (error toast, no mutation); `ok` carries the list passed to
`setMessages`; `typeError` is the JavaScript `TypeError` raised when
`newMessages[index]` is `undefined` and `.role` is read from it. -/
inductive DeleteOutcome where
  | rejected
  | ok (newMessages : List ChatMessage)
  | typeError
deriving DecidableEq, Repr

/-- `Array.prototype.splice(start, count)` restricted to removal: drop up to
`count` elements starting at `start` (clipped at the end of the array). -/
def spliceRemove (l : List ChatMessage) (start count : Nat) : List ChatMessage :=
  l.take start ++ l.drop (start + count)

/-- `handleDeleteMessage` from the chat panel: reject index 0; otherwise read
`newMessages[index].role` (a `TypeError` when the index is past the end) and
splice out two entries for a `'user'` turn, one entry otherwise. -/
def handleDeleteMessage (messages : List ChatMessage) (index : Nat) :
    DeleteOutcome :=
  if index = 0 then
    .rejected
  else
    match messages.get? index with
    | none => .typeError
    | some m =>
        if m.role = "user" then .ok (spliceRemove messages index 2)
        else .ok (spliceRemove messages index 1)

/-- The message list rendered after `handleDeleteMessage` runs: `setMessages`
fires only on the `ok` outcome; the rejection and the thrown `TypeError`
leave the state untouched. -/
def messagesAfterDelete (messages : List ChatMessage) (index : Nat) :
    List ChatMessage :=
  match handleDeleteMessage messages index with
  | .ok newMessages => newMessages
  | _ => messages

/-- A user-visible panel operation on the mounted panel, for stating
invariants over operation sequences. -/
inductive PanelOp where
  | deleteMsg (index : Nat)
  | send (remote : Except TransportError SendMessageResponse)

/-- Apply one panel operation to the state. -/
def applyOp (s : PanelState) : PanelOp → PanelState
  | .deleteMsg index => { s with messages := messagesAfterDelete s.messages index }
  | .send remote => (handleSendMessage s remote).1

/-- Apply a sequence of panel operations, oldest first. -/
def applyOps (s : PanelState) (ops : List PanelOp) : PanelState :=
  ops.foldl applyOp s

/-! ### Concrete fixtures -/

def msgW : ChatMessage := { role := "assistant", content := "W" }
def msgU1 : ChatMessage := { role := "user", content := "U1" }
def msgA1 : ChatMessage := { role := "assistant", content := "A1" }
def msgU2 : ChatMessage := { role := "user", content := "U2" }
def msgA2 : ChatMessage := { role := "assistant", content := "A2" }

/-- The list `[W, U1, A1, U2, A2]` of the deletion-pairing scenario. -/
def pairingList : List ChatMessage := [msgW, msgU1, msgA1, msgU2, msgA2]

/-! ### Claims -/

/-- C1: on `[W, U1, A1, U2, A2]`, deleting index 1 (role `user`) removes the
user turn and the following entry, yielding `[W, U2, A2]`; deleting index 2
(role `assistant`) removes that single entry, yielding `[W, U1, U2, A2]`;
deleting index 0 is rejected and the rendered list is unchanged. -/
theorem deletion_pairing_scenarios :
    handleDeleteMessage pairingList 1 = .ok [msgW, msgU2, msgA2]
    ∧ handleDeleteMessage pairingList 2 = .ok [msgW, msgU1, msgU2, msgA2]
    ∧ handleDeleteMessage pairingList 0 = .rejected
    ∧ messagesAfterDelete pairingList 0 = pairingList := by
  refine ⟨rfl, rfl, rfl, rfl⟩

/-- C2: a failed send leaves no trace — for every panel state, running
`handleSendMessage` against a transport failure leaves the message list
exactly as it was before the attempt (the optimistic append followed by
`prev.slice(0, -1)` nets to a no-op; a guard-rejected submit never touches
the list at all). -/
theorem failed_send_rollback (s : PanelState) (e : TransportError) :
    ((handleSendMessage s (.error e)).1).messages = s.messages := by
  unfold handleSendMessage chatService.sendMessage
  split
  · rfl
  · simp

/-- Shared helper: when the submit guard trips (`!inputMessage.trim() ||
!sessionId || isLoading`), `handleSendMessage` returns without touching the
state and without issuing a remote call. -/
theorem handleSendMessage_guard (s : PanelState)
    (remote : Except TransportError SendMessageResponse)
    (h : jsTrim s.inputMessage = "" ∨ s.sessionId = "" ∨ s.isLoading = true) :
    handleSendMessage s remote = (s, false) := by
  unfold handleSendMessage
  rw [if_pos h]

/-- C6: invoking submit while `isLoading` is true — or with all-whitespace
input, or with no session id set — changes nothing: the state (hence the
message list) is returned untouched and no remote call is issued, so at most
one send round-trip can be outstanding at a time. -/
theorem submit_guard_noop (s : PanelState)
    (remote : Except TransportError SendMessageResponse)
    (h : s.isLoading = true ∨ jsTrim s.inputMessage = "" ∨ s.sessionId = "") :
    handleSendMessage s remote = (s, false) := by
  apply handleSendMessage_guard
  tauto

/-- C6 witness: with a round-trip already outstanding (`isLoading = true`),
submitting a non-empty input in a live session is a no-op. -/
theorem submit_guard_noop_witness :
    handleSendMessage
        { sessionId := "s1", messages := [msgW], inputMessage := "hello",
          isLoading := true, isInitializing := false }
        (.ok { response := "r", session_id := "s1" })
      = ({ sessionId := "s1", messages := [msgW], inputMessage := "hello",
           isLoading := true, isInitializing := false }, false) :=
  submit_guard_noop
    { sessionId := "s1", messages := [msgW], inputMessage := "hello",
      isLoading := true, isInitializing := false }
    (.ok { response := "r", session_id := "s1" })
    (Or.inl rfl)

/-- C5: a successful send with input `m` and remote result `r` appends
exactly the user turn `{role := "user", content := m}` and then the
assistant turn `{role := "assistant", content := r.response}`, leaving every
earlier entry unchanged. -/
theorem successful_send_appends (s : PanelState) (r : SendMessageResponse)
    (h1 : jsTrim s.inputMessage ≠ "") (h2 : s.sessionId ≠ "")
    (h3 : s.isLoading = false) :
    ((handleSendMessage s (.ok r)).1).messages
      = s.messages ++ [{ role := "user", content := s.inputMessage },
                       { role := "assistant", content := r.response }] := by
  unfold handleSendMessage chatService.sendMessage
  rw [if_neg (by simp [h1, h2, h3])]
  simp

/-- C5 witness: sending "What is X?" in a ready session with remote result
`{response := "X is...", session_id := "s1"}` appends the user turn and the
assistant turn in order after the welcome entry. -/
theorem successful_send_appends_witness :
    ((handleSendMessage
        { sessionId := "s1", messages := [msgW], inputMessage := "What is X?",
          isLoading := false, isInitializing := false }
        (.ok { response := "X is...", session_id := "s1" })).1).messages
      = [msgW, { role := "user", content := "What is X?" },
              { role := "assistant", content := "X is..." }] :=
  successful_send_appends
    { sessionId := "s1", messages := [msgW], inputMessage := "What is X?",
      isLoading := false, isInitializing := false }
    { response := "X is...", session_id := "s1" }
    (by decide) (by decide) rfl

/-- C8: the client's error contract — `createSession` and `sendMessage`
pass the transport failure through to the caller (and the success value
through unchanged); `getChatHistory` yields `[]` on failure; `deleteSession`
and `testConnection` yield `false` on failure and `true` on success, never
propagating. -/
theorem client_error_contract (e : TransportError) (session : ChatSession)
    (r : SendMessageResponse) :
    chatService.createSession (.error e) = .error e
    ∧ chatService.createSession (.ok session) = .ok session
    ∧ chatService.sendMessage (.error e) = .error e
    ∧ chatService.sendMessage (.ok r) = .ok r
    ∧ chatService.getChatHistory (.error e) = []
    ∧ chatService.deleteSession (.error e) = false
    ∧ chatService.deleteSession (.ok ()) = true
    ∧ chatService.testConnection (.error e) = false
    ∧ chatService.testConnection (.ok ()) = true :=
  ⟨rfl, rfl, rfl, rfl, rfl, rfl, rfl, rfl, rfl⟩

/-- An `existing`-status session fixture. -/
def sessionExisting : ChatSession :=
  { session_id := "s1", welcome_message := "Hi", status := "existing" }

/-- A transport-failure fixture. -/
def netError : TransportError := { message := "network error" }

/-- C3 counterexample: resuming an `existing` session while the history
fetch suffers a transport failure does NOT land in the bootstrap failure
path. The failure is swallowed inside `getChatHistory`, the panel sees an
empty history, and the message list becomes the single welcome entry —
non-empty, unlike the createSession-failure path, which leaves it empty. -/
theorem history_failure_counterexample :
    (initializeChat (.ok sessionExisting) (.error netError) initialState).messages
      = [{ role := "assistant", content := "Hi" }]
    ∧ (initializeChat (.ok sessionExisting) (.error netError) initialState).messages
      ≠ []
    ∧ (initializeChat (.error netError) (.error netError) initialState).messages
      = [] :=
  ⟨rfl, by decide, rfl⟩

/-- C3 amended: a transport failure of the history fetch during an
`existing`-session bootstrap is caught inside `chatService.getChatHistory`,
which degrades to an empty history; the bootstrap then behaves exactly as if
an empty history had been fetched and falls back to the single welcome
entry — it does not enter the createSession failure path. Delete and probe
calls likewise catch internally and degrade to `false`. -/
theorem history_failure_degrades_to_welcome (session : ChatSession)
    (e : TransportError) (s : PanelState) (h : session.status = "existing") :
    initializeChat (.ok session) (.error e) s
      = initializeChat (.ok session) (.ok { history := some [] }) s
    ∧ (initializeChat (.ok session) (.error e) s).messages
      = [welcomeTurn session]
    ∧ chatService.deleteSession (.error e) = false
    ∧ chatService.testConnection (.error e) = false := by
  refine ⟨?_, ?_, rfl, rfl⟩ <;>
    simp [initializeChat, chatService.createSession, chatService.getChatHistory, h]

/-- C3 amended, witness: the concrete `existing` session with a failing
history transport falls back to the welcome entry. -/
theorem history_failure_degrades_to_welcome_witness :
    initializeChat (.ok sessionExisting) (.error netError) initialState
      = initializeChat (.ok sessionExisting) (.ok { history := some [] })
          initialState
    ∧ (initializeChat (.ok sessionExisting) (.error netError)
          initialState).messages = [welcomeTurn sessionExisting]
    ∧ chatService.deleteSession (.error netError) = false
    ∧ chatService.testConnection (.error netError) = false :=
  history_failure_degrades_to_welcome sessionExisting netError initialState rfl

/-- C4: the bootstrap postcondition after a successful `createSession` —
status `"new"` yields exactly the single welcome entry; status `"existing"`
with a non-empty fetched history installs that history verbatim; status
`"existing"` with an empty history falls back to the single welcome
entry. -/
theorem bootstrap_postcondition (session : ChatSession)
    (ht : Except TransportError HistoryResponse) (s : PanelState) :
    (session.status = "new" →
      (initializeChat (.ok session) ht s).messages = [welcomeTurn session])
    ∧ (session.status = "existing" → chatService.getChatHistory ht ≠ [] →
      (initializeChat (.ok session) ht s).messages
        = chatService.getChatHistory ht)
    ∧ (session.status = "existing" → chatService.getChatHistory ht = [] →
      (initializeChat (.ok session) ht s).messages = [welcomeTurn session]) := by
  refine ⟨fun h => ?_, fun h hne => ?_, fun h he => ?_⟩
  · unfold initializeChat chatService.createSession
    dsimp only
    rw [if_neg (show ¬session.status = "existing" by rw [h]; decide)]
  · unfold initializeChat chatService.createSession
    dsimp only
    rw [if_pos h, if_pos (List.length_pos.mpr hne)]
  · unfold initializeChat chatService.createSession
    dsimp only
    rw [if_pos h, he]
    rw [if_neg (by decide)]

/-- C4 witness: the three postcondition cases at concrete sessions — a
`"new"` session, an `"existing"` session with one history entry, and an
`"existing"` session with an empty history. -/
theorem bootstrap_postcondition_witness :
    (initializeChat
        (.ok { session_id := "s1", welcome_message := "Hi", status := "new" })
        (.ok { history := some [] }) initialState).messages
      = [{ role := "assistant", content := "Hi" }]
    ∧ (initializeChat (.ok sessionExisting)
        (.ok { history := some [msgU1] }) initialState).messages = [msgU1]
    ∧ (initializeChat (.ok sessionExisting)
        (.ok { history := some [] }) initialState).messages
      = [{ role := "assistant", content := "Hi" }] :=
  ⟨(bootstrap_postcondition
      { session_id := "s1", welcome_message := "Hi", status := "new" }
      (.ok { history := some [] }) initialState).1 rfl,
   (bootstrap_postcondition sessionExisting
      (.ok { history := some [msgU1] }) initialState).2.1 rfl (by decide),
   (bootstrap_postcondition sessionExisting
      (.ok { history := some [] }) initialState).2.2 rfl rfl⟩

/-- C7: bootstrap from the mount state — the finally block clears
`isInitializing` on every outcome, and when `createSession` fails the
message list stays empty, the session id stays unset, and every subsequent
submit is inert (no state change, no remote call, because the empty session
id trips the guard). -/
theorem bootstrap_finally_and_failure_inert
    (ct : Except TransportError ChatSession)
    (ht : Except TransportError HistoryResponse) :
    (initializeChat ct ht initialState).isInitializing = false
    ∧ (∀ e, ct = .error e →
        (initializeChat ct ht initialState).messages = []
        ∧ (initializeChat ct ht initialState).sessionId = ""
        ∧ ∀ remote, handleSendMessage (initializeChat ct ht initialState) remote
            = (initializeChat ct ht initialState, false)) := by
  cases ct with
  | error e =>
      refine ⟨rfl, fun e2 h2 => ⟨rfl, rfl, fun remote => ?_⟩⟩
      exact handleSendMessage_guard _ remote (Or.inr (Or.inl rfl))
  | ok session =>
      refine ⟨?_, fun e2 h2 => Except.noConfusion h2⟩
      unfold initializeChat chatService.createSession
      dsimp only
      split
      · split <;> rfl
      · rfl

/-- C7 witness: a failing `createSession` transport leaves the panel with
`isInitializing` cleared, no messages, no session id, and an inert submit. -/
theorem bootstrap_finally_witness :
    (initializeChat (.error netError) (.error netError)
        initialState).isInitializing = false
    ∧ (initializeChat (.error netError) (.error netError)
        initialState).messages = []
    ∧ (initializeChat (.error netError) (.error netError)
        initialState).sessionId = ""
    ∧ handleSendMessage
        (initializeChat (.error netError) (.error netError) initialState)
        (.ok { response := "r", session_id := "s1" })
      = (initializeChat (.error netError) (.error netError) initialState,
         false) := by
  obtain ⟨h1, h2⟩ :=
    bootstrap_finally_and_failure_inert (.error netError) (.error netError)
  obtain ⟨a, b, c⟩ := h2 netError rfl
  exact ⟨h1, a, b, c _⟩

/-- C9: for a positive index, `handleDeleteMessage` succeeds exactly on
in-bounds indices — in bounds it always produces a new list (in particular a
`user` turn at the last position loses only itself, the two-entry splice
being clipped at the end), while any index at or past the end reads the
`role` of a nonexistent entry and raises the `TypeError`. -/
theorem delete_totality (messages : List ChatMessage) (index : Nat)
    (h : 0 < index) :
    (index < messages.length →
      ∃ l, handleDeleteMessage messages index = .ok l)
    ∧ (messages.length ≤ index →
      handleDeleteMessage messages index = .typeError)
    ∧ (index + 1 = messages.length →
      ∀ m, messages.get? index = some m → m.role = "user" →
        handleDeleteMessage messages index = .ok (messages.take index)) := by
  have hne : index ≠ 0 := Nat.pos_iff_ne_zero.mp h
  refine ⟨fun hlt => ?_, fun hle => ?_, fun hlen m hm hr => ?_⟩
  · unfold handleDeleteMessage
    rw [if_neg hne]
    obtain ⟨m, hm⟩ : ∃ m, messages.get? index = some m := by
      cases hg : messages.get? index with
      | none => exact absurd (List.get?_eq_none.mp hg) (Nat.not_le.mpr hlt)
      | some m => exact ⟨m, rfl⟩
    rw [hm]
    dsimp only
    by_cases hr : m.role = "user"
    · rw [if_pos hr]; exact ⟨_, rfl⟩
    · rw [if_neg hr]; exact ⟨_, rfl⟩
  · unfold handleDeleteMessage
    rw [if_neg hne, List.get?_eq_none.mpr hle]
  · unfold handleDeleteMessage
    rw [if_neg hne, hm]
    dsimp only
    rw [if_pos hr]
    unfold spliceRemove
    rw [List.drop_eq_nil_of_le (by omega), List.append_nil]

/-- C9 witness: on `[W, U1]`, deleting the trailing `user` turn at index 1
succeeds and removes only that entry (the clipped splice); on `[W]`, index 1
is past the end and raises the `TypeError`. -/
theorem delete_totality_witness :
    handleDeleteMessage [msgW, msgU1] 1 = .ok [msgW]
    ∧ handleDeleteMessage [msgW] 1 = .typeError := by
  constructor
  · exact (delete_totality [msgW, msgU1] 1 (by decide)).2.2 rfl msgU1 rfl rfl
  · exact (delete_totality [msgW] 1 (by decide)).2.1 (by decide)

/-- Shared helper: a clipped splice that starts strictly inside a list never
empties it — the prefix kept in front survives. -/
theorem spliceRemove_ne_nil (l : List ChatMessage) (start count : Nat)
    (h1 : 0 < start) (h2 : start < l.length) :
    spliceRemove l start count ≠ [] := by
  apply List.length_pos.mp
  unfold spliceRemove
  rw [List.length_append, List.length_take]
  omega

/-- Shared helper: the rendered list after `handleDeleteMessage` is
non-empty whenever the list before it was — index 0 is rejected outright,
out-of-bounds indices throw before `setMessages`, and an in-bounds splice at
a positive index keeps the prefix. -/
theorem messagesAfterDelete_ne_nil (messages : List ChatMessage) (index : Nat)
    (h : messages ≠ []) : messagesAfterDelete messages index ≠ [] := by
  unfold messagesAfterDelete handleDeleteMessage
  by_cases h0 : index = 0
  · rw [if_pos h0]; exact h
  · rw [if_neg h0]
    cases hg : messages.get? index with
    | none => exact h
    | some m =>
        have hlt : index < messages.length := (List.get?_eq_some.mp hg).1
        have hpos : 0 < index := Nat.pos_of_ne_zero h0
        dsimp only
        by_cases hr : m.role = "user"
        · rw [if_pos hr]; exact spliceRemove_ne_nil messages index 2 hpos hlt
        · rw [if_neg hr]; exact spliceRemove_ne_nil messages index 1 hpos hlt

/-- Shared helper: `handleSendMessage` never empties a non-empty message
list — a tripped guard changes nothing, a success appends, and the failure
rollback removes exactly the user turn appended by the same attempt. -/
theorem handleSendMessage_messages_ne_nil (s : PanelState)
    (remote : Except TransportError SendMessageResponse)
    (h : s.messages ≠ []) : ((handleSendMessage s remote).1).messages ≠ [] := by
  unfold handleSendMessage chatService.sendMessage
  split
  · exact h
  · cases remote with
    | ok r => simp
    | error e => simpa using h

/-- C10: once the message list is non-empty, no sequence of panel operations
(local deletions at any index, sends with any transport outcome) can ever
empty it again. -/
theorem nonempty_messages_invariant (s : PanelState) (ops : List PanelOp)
    (h : s.messages ≠ []) : (applyOps s ops).messages ≠ [] := by
  induction ops generalizing s with
  | nil => exact h
  | cons op rest ih =>
      apply ih
      cases op with
      | deleteMsg index => exact messagesAfterDelete_ne_nil s.messages index h
      | send remote => exact handleSendMessage_messages_ne_nil s remote h

/-- C10 witness: a concrete run — a rejected deletion of the welcome entry,
a failed send, and an out-of-bounds deletion — leaves the bootstrap-produced
list non-empty. -/
theorem nonempty_messages_invariant_witness :
    (applyOps
        { sessionId := "s1", messages := [msgW], inputMessage := "hello",
          isLoading := false, isInitializing := false }
        [.deleteMsg 0, .send (.error netError), .deleteMsg 5]).messages
      ≠ [] :=
  nonempty_messages_invariant
    { sessionId := "s1", messages := [msgW], inputMessage := "hello",
      isLoading := false, isInitializing := false }
    [.deleteMsg 0, .send (.error netError), .deleteMsg 5]
    (by decide)
